import Mathlib

/-!
Shallow embedding of the driver-scoring and tabular-aggregation engine of
the chatplanilha repository (src/services/data_processor.py), together with
theorems settling the frozen claims about it.

Modelling conventions:
* pandas floating values are idealized as exact rationals extended with
  explicit NaN and signed-infinity markers (`PVal`); a missing numeric cell
  is NaN, exactly as pandas represents it.
* a pandas DataFrame is column-major: an ordered association list from
  column name to the list of cell values (`DataFrame`).
* Python exceptions raised inside an operation are modelled with
  `Except Unit`; `pd.read_excel` and `DataFrame.query` (external library
  engines) are modelled as parameters supplying their outcome.
-/

/-- A pandas floating value: finite values are exact rationals, with explicit
NaN and signed-infinity markers. -/
inductive PVal where
  | num (q : ℚ)
  | nan
  | pinf
  | ninf
deriving DecidableEq, Repr

/-- True exactly on the NaN marker. -/
def PVal.isNan : PVal → Bool
  | .nan => true
  | _ => false

/-- IEEE-style negation. -/
def PVal.neg : PVal → PVal
  | .num q => .num (-q)
  | .nan => .nan
  | .pinf => .ninf
  | .ninf => .pinf

/-- IEEE-style addition: NaN contaminates, opposite infinities give NaN. -/
def PVal.add : PVal → PVal → PVal
  | .nan, _ => .nan
  | _, .nan => .nan
  | .pinf, .ninf => .nan
  | .ninf, .pinf => .nan
  | .pinf, _ => .pinf
  | _, .pinf => .pinf
  | .ninf, _ => .ninf
  | _, .ninf => .ninf
  | .num a, .num b => .num (a + b)

/-- IEEE-style subtraction. -/
def PVal.sub (a b : PVal) : PVal := a.add b.neg

/-- IEEE-style multiplication: NaN contaminates, infinity times zero is NaN. -/
def PVal.mul : PVal → PVal → PVal
  | .nan, _ => .nan
  | _, .nan => .nan
  | .pinf, .pinf => .pinf
  | .pinf, .ninf => .ninf
  | .ninf, .pinf => .ninf
  | .ninf, .ninf => .pinf
  | .pinf, .num b => if 0 < b then .pinf else if b < 0 then .ninf else .nan
  | .num a, .pinf => if 0 < a then .pinf else if a < 0 then .ninf else .nan
  | .ninf, .num b => if 0 < b then .ninf else if b < 0 then .pinf else .nan
  | .num a, .ninf => if 0 < a then .ninf else if a < 0 then .pinf else .nan
  | .num a, .num b => .num (a * b)

/-- IEEE-style division as pandas performs it elementwise: finite/0 gives a
signed infinity (NaN for 0/0), never an exception. -/
def PVal.div : PVal → PVal → PVal
  | .nan, _ => .nan
  | _, .nan => .nan
  | .pinf, .pinf => .nan
  | .pinf, .ninf => .nan
  | .ninf, .pinf => .nan
  | .ninf, .ninf => .nan
  | .pinf, .num b => if b < 0 then .ninf else .pinf
  | .ninf, .num b => if b < 0 then .pinf else .ninf
  | .num _, .pinf => .num 0
  | .num _, .ninf => .num 0
  | .num a, .num b =>
      if b = 0 then (if a = 0 then .nan else if 0 < a then .pinf else .ninf)
      else .num (a / b)

/-- Comparison with zero as Python evaluates `v > 0` (False on NaN). -/
def PVal.gtZero : PVal → Bool
  | .num q => decide (0 < q)
  | .pinf => true
  | _ => false

/-- Order used by max/min folds; never applied to NaN (callers drop NaN first). -/
def PVal.leB : PVal → PVal → Bool
  | .ninf, _ => true
  | _, .pinf => true
  | .num a, .num b => decide (a ≤ b)
  | _, _ => false

/-- Drop NaN entries, as pandas skipna reductions do. -/
def PVal.dropNan (l : List PVal) : List PVal := l.filter (fun v => !v.isNan)

/-- pandas Series.sum with skipna: NaNs dropped, empty sum is 0. -/
def PVal.seriesSum (l : List PVal) : PVal :=
  (PVal.dropNan l).foldl PVal.add (.num 0)

/-- pandas Series.mean with skipna: NaN on an empty or all-NaN series. -/
def PVal.seriesMean (l : List PVal) : PVal :=
  let v := PVal.dropNan l
  if v.isEmpty then .nan else (v.foldl PVal.add (.num 0)).div (.num v.length)

/-- pandas Series.max with skipna: NaN on an empty or all-NaN series. -/
def PVal.seriesMax (l : List PVal) : PVal :=
  match PVal.dropNan l with
  | [] => .nan
  | x :: xs => xs.foldl (fun a b => if PVal.leB a b then b else a) x

/-- pandas Series.min with skipna: NaN on an empty or all-NaN series. -/
def PVal.seriesMin (l : List PVal) : PVal :=
  match PVal.dropNan l with
  | [] => .nan
  | x :: xs => xs.foldl (fun a b => if PVal.leB b a then b else a) x

/-- A cell of a loaded table: a text value or a (possibly missing) numeric
value. Datetime cells never occur in the scenarios modelled here. -/
inductive Cell where
  | str (s : String)
  | val (v : PVal)
deriving DecidableEq, Repr

/-- Convenience constructor for a finite numeric cell. -/
def Cell.num (q : ℚ) : Cell := .val (.num q)

/-- The missing-value cell (pandas NaN). -/
def Cell.na : Cell := .val .nan

/-- Python `==` on cells as pandas broadcasts it: NaN equals nothing,
text never equals a number. -/
def Cell.peq : Cell → Cell → Bool
  | .str a, .str b => decide (a = b)
  | .val .nan, _ => false
  | _, .val .nan => false
  | .val a, .val b => decide (a = b)
  | _, _ => false

/-- The text values of a list of cells, in order. -/
def Cell.strsOf (l : List Cell) : List String :=
  l.filterMap fun c => match c with | .str s => some s | _ => none

/-- The numeric values of a list of cells, in order (NaN included). -/
def Cell.valsOf (l : List Cell) : List PVal :=
  l.filterMap fun c => match c with | .val v => some v | _ => none

/-- A column-major pandas DataFrame: ordered list of named columns. -/
structure DataFrame where
  cols : List (String × List Cell)
deriving DecidableEq, Repr

/-- The empty DataFrame, `pd.DataFrame()`. -/
def DataFrame.empty : DataFrame := ⟨[]⟩

/-- Column names in declared order. -/
def DataFrame.columns (df : DataFrame) : List String := df.cols.map Prod.fst

/-- Cell values of a named column (empty when absent). -/
def DataFrame.getCol (df : DataFrame) (name : String) : List Cell :=
  match df.cols.find? (fun p => decide (p.1 = name)) with
  | some p => p.2
  | none => []

/-- Column assignment `df[name] = vs`: replaces an existing column in place,
otherwise appends a new one. -/
def DataFrame.setCol (df : DataFrame) (name : String) (vs : List Cell) : DataFrame :=
  if df.cols.any (fun p => decide (p.1 = name)) then
    ⟨df.cols.map fun p => if p.1 = name then (name, vs) else p⟩
  else ⟨df.cols ++ [(name, vs)]⟩

/-- Number of rows (length of the first column). -/
def DataFrame.nRows (df : DataFrame) : Nat :=
  match df.cols with
  | [] => 0
  | p :: _ => p.2.length

/-- Character list of a string after Python `str.lower()` (the column and
pattern names in play are ASCII, where `Char.toLower` agrees with Python). -/
def lowerChars (s : String) : List Char := s.toList.map Char.toLower

/-- Substring test on character lists, modelling Python `sub in s`. -/
def strHasSub (s sub : List Char) : Bool :=
  (List.range (s.length + 1)).any fun i => sub.isPrefixOf (s.drop i)

/-- Python `pattern.lower() in col.lower()` from `_find_column_by_pattern`. -/
def matchesPat (col pat : String) : Bool :=
  strHasSub (lowerChars col) (lowerChars pat)

/-- Inner double loop of `_find_column_by_pattern`: patterns in given order,
columns in declared order, first match wins. -/
def findColAux (cols : List String) : List String → Option String
  | [] => none
  | p :: ps =>
      match cols.find? (fun c => matchesPat c p) with
      | some c => some c
      | none => findColAux cols ps

/-- DataProcessor._find_column_by_pattern: None when no data is loaded,
otherwise the first column matching the first pattern that matches any. -/
def find_column_by_pattern (data : Option DataFrame) (patterns : List String) :
    Option String :=
  match data with
  | none => none
  | some df => findColAux df.columns patterns

/-- Code-point lexicographic strict order on character lists, as Python
compares strings. -/
def charListLt : List Char → List Char → Bool
  | [], [] => false
  | [], _ :: _ => true
  | _ :: _, [] => false
  | a :: as, b :: bs =>
      if a.toNat < b.toNat then true
      else if b.toNat < a.toNat then false
      else charListLt as bs

/-- String strict order by code points. -/
def strLtB (a b : String) : Bool := charListLt a.toList b.toList

/-- Lexicographic fold used by pandas max on an all-text column. -/
def strFoldMax (x : String) (xs : List String) : String :=
  xs.foldl (fun a b => if strLtB a b then b else a) x

/-- Lexicographic fold used by pandas min on an all-text column. -/
def strFoldMin (x : String) (xs : List String) : String :=
  xs.foldl (fun a b => if strLtB b a then b else a) x

/-- pandas Series.sum over a cell list: numeric columns sum with skipna
(empty and all-NaN give 0); all-text columns concatenate; text mixed with
finite numbers raises (error). -/
def cellSum (cells : List Cell) : Except Unit Cell :=
  let strs := Cell.strsOf cells
  let pvs := Cell.valsOf cells
  if strs.isEmpty then .ok (.val (PVal.seriesSum pvs))
  else if (PVal.dropNan pvs).isEmpty then .ok (.str (strs.foldl (· ++ ·) ""))
  else .error ()

/-- pandas Series.mean over a cell list: numeric with skipna (all-NaN gives
NaN); any text value raises (error). -/
def cellMean (cells : List Cell) : Except Unit Cell :=
  if (Cell.strsOf cells).isEmpty then .ok (.val (PVal.seriesMean (Cell.valsOf cells)))
  else .error ()

/-- pandas Series.max over a cell list: numeric with skipna; all-text takes
the lexicographic maximum; text mixed with finite numbers raises. -/
def cellMax (cells : List Cell) : Except Unit Cell :=
  let strs := Cell.strsOf cells
  let pvs := Cell.valsOf cells
  if strs.isEmpty then .ok (.val (PVal.seriesMax pvs))
  else if (PVal.dropNan pvs).isEmpty then
    match strs with
    | [] => .ok (.val .nan)
    | x :: xs => .ok (.str (strFoldMax x xs))
  else .error ()

/-- pandas Series.min over a cell list, mirroring `cellMax`. -/
def cellMin (cells : List Cell) : Except Unit Cell :=
  let strs := Cell.strsOf cells
  let pvs := Cell.valsOf cells
  if strs.isEmpty then .ok (.val (PVal.seriesMin pvs))
  else if (PVal.dropNan pvs).isEmpty then
    match strs with
    | [] => .ok (.val .nan)
    | x :: xs => .ok (.str (strFoldMin x xs))
  else .error ()

/-- pandas Series.count over a cell list: number of non-missing entries;
valid on any dtype. -/
def cellCount (cells : List Cell) : Except Unit Cell :=
  .ok (.num (cells.filter (fun c => !(c = Cell.na : Bool))).length)

/-- Python `v > 0` on a cell: raises on text (TypeError), False on NaN. -/
def cellGtZero : Cell → Except Unit Bool
  | .val v => .ok v.gtZero
  | .str _ => .error ()

/-- Elementwise binary arithmetic on cells: defined on numerics, raises on
text operands (as Python string arithmetic with numbers does). -/
def cellArith (f : PVal → PVal → PVal) : Cell → Cell → Except Unit Cell
  | .val a, .val b => .ok (.val (f a b))
  | _, _ => .error ()

/-- The aggregation functions accepted by `calculate_metrics`. -/
inductive AggFunc where
  | mean
  | sum
  | count
  | min
  | max
deriving DecidableEq, Repr

/-- Dispatch of a pandas aggregation name over one group's cells. -/
def applyAgg : AggFunc → List Cell → Except Unit Cell
  | .mean => cellMean
  | .sum => cellSum
  | .count => cellCount
  | .min => cellMin
  | .max => cellMax

/-- First-seen-order deduplication, modelling `pandas.Series.unique`
(structural equality, so a single NaN survives as pandas keeps one NaN). -/
def uniqueCells (l : List Cell) : List Cell :=
  l.foldl (fun acc c => if c ∈ acc then acc else acc ++ [c]) []

/-- Cells of column `mcol` on the rows whose `dcol` cell compares `==` to
`x`: the filter-then-project idiom `data[data[dcol] == x][mcol]`. -/
def metricFor (df : DataFrame) (dcol : String) (x : Cell) (mcol : String) :
    List Cell :=
  ((df.getCol dcol).zip (df.getCol mcol)).filterMap
    fun p => if Cell.peq p.1 x then some p.2 else none

/-- Insertion by a boolean order, for the sorted group keys of groupby. -/
def insertByLe (le : Cell → Cell → Bool) (a : Cell) : List Cell → List Cell
  | [] => [a]
  | b :: bs => if le a b then a :: b :: bs else b :: insertByLe le a bs

/-- Insertion sort by a boolean order. -/
def sortByLe (le : Cell → Cell → Bool) : List Cell → List Cell
  | [] => []
  | a :: as => insertByLe le a (sortByLe le as)

/-- Order on group keys of a single dtype: text lexicographic, numeric by
value (never applied to NaN, which groupby drops). -/
def cellKeyLe : Cell → Cell → Bool
  | .str a, .str b => !(strLtB b a)
  | .val a, .val b => PVal.leB a b
  | _, _ => false

/-- Left-to-right effectful map over a list, short-circuiting on the first
raised exception, exactly as a Python for-loop over `apply` does. -/
def mapExcept {a b : Type} (f : a → Except Unit b) : List a → Except Unit (List b)
  | [] => .ok []
  | x :: xs => do
      let y ← f x
      let ys ← mapExcept f xs
      .ok (y :: ys)

/-- Left-to-right effectful fold, short-circuiting on the first raised
exception. -/
def foldExcept {g a : Type} (f : g → a → Except Unit g) : g → List a → Except Unit g
  | acc, [] => .ok acc
  | acc, x :: xs => do
      let acc2 ← f acc x
      foldExcept f acc2 xs

/-- pandas `df.groupby(g).agg({m: f})`: drops NaN keys, sorts the distinct
keys (raising on a mixed text/numeric key column, which cannot be sorted),
and aggregates `m` over each group; the result is rendered with the group
keys as the first column. Any raised aggregation error propagates. -/
def groupAgg (df : DataFrame) (group_by metric_col : String) (f : AggFunc) :
    Except Unit DataFrame := do
  let rawKeys := (df.getCol group_by).filter (fun c => !(c = Cell.na : Bool))
  let keys0 := uniqueCells rawKeys
  if !(Cell.strsOf keys0).isEmpty ∧ !(Cell.valsOf keys0).isEmpty then
    .error ()
  else do
    let keys := sortByLe cellKeyLe keys0
    let vals ← mapExcept (fun k => applyAgg f (metricFor df group_by k metric_col)) keys
    .ok ⟨[(group_by, keys), (metric_col, vals)]⟩

/-- DataProcessor.calculate_metrics: empty DataFrame when no data is loaded
or either column is missing; otherwise groupby-agg with every raised
exception caught and turned into the empty DataFrame. -/
def calculate_metrics (data : Option DataFrame) (group_by metric_col : String)
    (agg_func : AggFunc) : DataFrame :=
  match data with
  | none => DataFrame.empty
  | some df =>
      if group_by ∉ df.columns ∨ metric_col ∉ df.columns then DataFrame.empty
      else
        match groupAgg df group_by metric_col agg_func with
        | .ok r => r
        | .error _ => DataFrame.empty

/-- Replacement of the first occurrence, modelling
`score_columns[score_columns.index(col)] = new`. -/
def replaceFirst : List String → String → String → List String
  | [], _, _ => []
  | x :: xs, a, b => if x = a then b :: xs else x :: replaceFirst xs a b

/-- The single-element error record returned when no driver column exists. -/
def driverErrorFrame : DataFrame :=
  ⟨[("erro", [.str "Coluna de motorista não encontrada"])]⟩

/-- One metric-role block of `calculate_driver_scores`: when the role column
is discovered (Python truthiness: present and nonempty), add the per-driver
sum column and, for the roles that also take a mean, the per-driver mean
column; exceptions raised by the aggregations propagate. -/
def addRoleCols (df : DataFrame) (dcol : String) (drivers : List Cell)
    (role : Option String) (sumName : String) (meanName : Option String)
    (sdf : DataFrame) : Except Unit DataFrame := do
  match role with
  | none => pure sdf
  | some rc =>
      if rc = "" then pure sdf
      else do
        let tot ← mapExcept (fun x => cellSum (metricFor df dcol x rc)) drivers
        let sdf1 := sdf.setCol sumName tot
        match meanName with
        | none => pure sdf1
        | some mn => do
            let mea ← mapExcept (fun x => cellMean (metricFor df dcol x rc)) drivers
            pure (sdf1.setCol mn mea)

/-- DataProcessor.calculate_driver_scores. Empty frame when no data is
loaded; the error record when no driver-identity column is discovered;
otherwise one row per first-seen distinct driver value with trip counts,
the discovered role metrics, the normalization block and the overall score.
The Python loop mutates `score_columns` in place while iterating, but each
replacement lands at the index just visited, so folding over the pre-loop
list while threading the updated list is behaviourally identical. -/
def calculate_driver_scores (data : Option DataFrame) : Except Unit DataFrame := do
  match data with
  | none => pure DataFrame.empty
  | some df =>
    match find_column_by_pattern (some df) ["motorista", "condutor", "driver"] with
    | none => pure driverErrorFrame
    | some dcol =>
      if dcol = "" then pure driverErrorFrame
      else do
        let drivers := uniqueCells (df.getCol dcol)
        let sdf := (DataFrame.empty.setCol "motorista" drivers).setCol "total_viagens"
          (drivers.map fun x =>
            Cell.num (((df.getCol dcol).filter (fun c => Cell.peq c x)).length : ℚ))
        let sdf ← addRoleCols df dcol drivers
          (find_column_by_pattern (some df) ["distancia", "km", "quilometragem", "distance"])
          "distancia_total" (some "distancia_media") sdf
        let sdf ← addRoleCols df dcol drivers
          (find_column_by_pattern (some df) ["tempo", "duracao", "duration", "time"])
          "tempo_total" (some "tempo_medio") sdf
        let sdf ← addRoleCols df dcol drivers
          (find_column_by_pattern (some df) ["consumo", "combustivel", "fuel", "consumption"])
          "consumo_total" (some "consumo_medio") sdf
        let sdf ← addRoleCols df dcol drivers
          (find_column_by_pattern (some df) ["infracoes", "eventos", "violations", "events"])
          "total_eventos" none sdf
        let score0 : List String :=
          (if "distancia_total" ∈ sdf.columns then ["distancia_total"] else []) ++
          (if "total_viagens" ∈ sdf.columns then ["total_viagens"] else [])
        let step1 ←
          if "total_eventos" ∈ sdf.columns then do
            let ev := sdf.getCol "total_eventos"
            let m ← cellMax ev
            let en ← mapExcept (fun v => do
              let d ← cellArith PVal.div v m
              let t ← cellArith PVal.mul d (Cell.num 100)
              cellArith PVal.sub (Cell.num 100) t) ev
            pure (sdf.setCol "eventos_norm" en, score0 ++ ["eventos_norm"])
          else pure (sdf, score0)
        if step1.2.isEmpty then pure step1.1
        else do
          let step2 ← foldExcept (fun acc col => do
            if col = "eventos_norm" then pure acc
            else do
              let vals := acc.1.getCol col
              let m ← cellMax vals
              let gt ← cellGtZero m
              if gt then do
                let nv ← mapExcept (fun v => do
                  let d ← cellArith PVal.div v m
                  cellArith PVal.mul d (Cell.num 100)) vals
                pure (acc.1.setCol (col ++ "_norm") nv,
                  replaceFirst acc.2 col (col ++ "_norm"))
              else pure acc) step1 step1.2
          let geral ← mapExcept (fun i =>
            cellMean (step2.2.filterMap fun c => (step2.1.getCol c).get? i))
            (List.range drivers.length)
          pure (step2.1.setCol "score_geral" geral)

/-- The semantic column type inferred at load time
(`_process_metadata`). -/
inductive ColType where
  | integer
  | float
  | datetime
  | text
deriving DecidableEq, Repr

/-- Dtype inference for a loaded column: all-numeric cells give a numeric
dtype, integer exactly when every value is a whole number and none is
missing (a NaN forces float64); any text cell gives object/text. Datetime
cells do not occur in this model, so the datetime branch is unreachable. -/
def columnType (cells : List Cell) : ColType :=
  if (Cell.strsOf cells).isEmpty then
    if cells.all (fun c => match c with | .val (.num q) => q.den = 1 | _ => false)
    then .integer else .float
  else .text

/-- Metadata computed once per successful load (`_process_metadata`).
`memory_cells` abstracts the pandas-internal deep memory estimate as the
total number of cells; no claim inspects it. -/
structure Metadata where
  num_rows : Nat
  num_columns : Nat
  columns : List String
  memory_cells : Nat
  file_name : Option String
  column_types : List (String × ColType)
deriving DecidableEq, Repr

/-- Python `os.path.basename`: the part after the last slash. -/
def basename (s : String) : String :=
  ⟨s.toList.foldl (fun acc ch => if ch = '/' then [] else acc ++ [ch]) []⟩

/-- Per-numeric-column describe fields representable exactly; the standard
deviation and quartiles of pandas describe are floating/irrational and no
claim inspects them, so they are not modelled. -/
structure NumStats where
  count : Nat
  mean : PVal
  smin : PVal
  smax : PVal
deriving DecidableEq, Repr

/-- Summary statistics (`_calculate_summary_stats`). The `numeric` entry is
optional because the Python dict only gains the key when some numeric
column exists. -/
structure SummaryStats where
  numeric : Option (List (String × NumStats))
  categorical : List (String × List (Cell × Nat))
  missing_values : List (String × Nat)
deriving DecidableEq, Repr

/-- The initial empty summary dict of `__init__`. -/
def SummaryStats.init : SummaryStats := ⟨none, [], []⟩

/-- Stable descending insertion by count (ties keep first-seen order). -/
def insertCountDesc (a : Cell × Nat) : List (Cell × Nat) → List (Cell × Nat)
  | [] => [a]
  | b :: bs => if b.2 < a.2 then a :: b :: bs else b :: insertCountDesc a bs

/-- pandas value_counts().head(20): counts of distinct non-missing values,
most frequent first, ties in first-seen order, truncated to 20. -/
def valueCounts (cells : List Cell) : List (Cell × Nat) :=
  let nonNa := cells.filter (fun c => !(c = Cell.na : Bool))
  let counted := (uniqueCells nonNa).map
    fun k => (k, (nonNa.filter (fun c => (c = k : Bool))).length)
  (counted.foldl (fun acc a => insertCountDesc a acc) []).take 20

/-- The in-memory state of one DataProcessor instance (`__init__`). -/
structure DataProcessor where
  data : Option DataFrame
  file_path : Option String
  summary_stats : SummaryStats
  column_types : List (String × ColType)
  metadata : Option Metadata
deriving DecidableEq, Repr

/-- The freshly constructed processor. -/
def DataProcessor.init : DataProcessor := ⟨none, none, SummaryStats.init, [], none⟩

/-- DataProcessor._process_metadata: no-op without data; otherwise rebuilds
metadata and the column-type map from the loaded table. -/
def process_metadata (p : DataProcessor) : DataProcessor :=
  match p.data with
  | none => p
  | some df =>
      let ct := df.cols.map fun c => (c.1, columnType c.2)
      { p with
        column_types := ct,
        metadata := some
          { num_rows := df.nRows
            num_columns := df.cols.length
            columns := df.columns
            memory_cells := (df.cols.map (fun c => c.2.length)).sum
            file_name := p.file_path.map basename
            column_types := ct } }

/-- DataProcessor._calculate_summary_stats: numeric describe only when a
numeric column exists (otherwise the previous entry is left in place, as the
Python dict key is simply not rewritten), categorical counts for non-numeric
columns with fewer than 100 distinct values, missing counts for every
column. -/
def calculate_summary_stats (p : DataProcessor) : DataProcessor :=
  match p.data with
  | none => p
  | some df =>
      let isNum := fun (c : String × List Cell) =>
        columnType c.2 = ColType.integer ∨ columnType c.2 = ColType.float
      let numericCols := df.cols.filter isNum
      let numeric :=
        if numericCols.isEmpty then p.summary_stats.numeric
        else some (numericCols.map fun c =>
          let pvs := Cell.valsOf c.2
          (c.1,
           { count := (PVal.dropNan pvs).length
             mean := PVal.seriesMean pvs
             smin := PVal.seriesMin pvs
             smax := PVal.seriesMax pvs : NumStats }))
      let categorical := (df.cols.filter fun c =>
          ¬ isNum c ∧
          (uniqueCells (c.2.filter (fun x => !(x = Cell.na : Bool)))).length < 100).map
        fun c => (c.1, valueCounts c.2)
      let missing := df.cols.map
        fun c => (c.1, (c.2.filter (fun x => (x = Cell.na : Bool))).length)
      { p with summary_stats :=
          { numeric := numeric, categorical := categorical, missing_values := missing } }

/-- DataProcessor.load_data. `parsed` is the outcome of the external
`pd.read_excel` engine (`none` models a raised parse exception). The Python
body assigns `self.file_path` before attempting the read, so the stored path
changes even when the load fails; the remaining state is only touched on a
successful parse. -/
def load_data (p : DataProcessor) (file_path : String) (parsed : Option DataFrame) :
    Bool × DataProcessor :=
  let p1 := { p with file_path := some file_path }
  match parsed with
  | none => (false, p1)
  | some df =>
      (true, calculate_summary_stats (process_metadata { p1 with data := some df }))

/-- DataProcessor.query_data. `qexec` is the external pandas query engine
(`.error` models a raised exception, which the method catches). -/
def query_data (p : DataProcessor) (query : String)
    (qexec : DataFrame → String → Except Unit DataFrame) : DataFrame :=
  match p.data with
  | none => DataFrame.empty
  | some df =>
      match qexec df query with
      | .ok r => r
      | .error _ => DataFrame.empty

/-- DataProcessor.get_column_data: empty list without data or when the
column is absent. -/
def get_column_data (p : DataProcessor) (column_name : String) : List Cell :=
  match p.data with
  | none => []
  | some df => if column_name ∈ df.columns then df.getCol column_name else []

/-- DataProcessor.get_data_sample: first `n` rows. -/
def get_data_sample (p : DataProcessor) (n : Nat) : DataFrame :=
  match p.data with
  | none => DataFrame.empty
  | some df => ⟨df.cols.map fun c => (c.1, c.2.take n)⟩

/-- Modelled from the spec: the Sanitizer component of §4.5 has no
counterpart anywhere under src/ (no repository function walks results
replacing non-finite values), so the value universe it walks — nested
mappings, ordered sequences and scalars — is taken from the spec's words. -/
inductive JVal where
  | null
  | jbool (b : Bool)
  | jint (n : ℤ)
  | jfloat (f : PVal)
  | jstr (s : String)
  | jarr (xs : List JVal)
  | jobj (fields : List (String × JVal))

mutual

/-- Modelled from the spec: `sanitize(value)` of §4.5 (absent from src/)
recursively transforms mappings key-wise and sequences element-wise, turns
every NaN or infinite floating value into the null marker, and passes
integers and all other scalars through unchanged. -/
def sanitize : JVal → JVal
  | .null => .null
  | .jbool b => .jbool b
  | .jint n => .jint n
  | .jfloat (.num q) => .jfloat (.num q)
  | .jfloat .nan => .null
  | .jfloat .pinf => .null
  | .jfloat .ninf => .null
  | .jstr s => .jstr s
  | .jarr xs => .jarr (sanitizeSeq xs)
  | .jobj fs => .jobj (sanitizeMap fs)

/-- Element-wise sanitization of an ordered sequence. -/
def sanitizeSeq : List JVal → List JVal
  | [] => []
  | x :: xs => sanitize x :: sanitizeSeq xs

/-- Key-wise sanitization of a mapping's values. -/
def sanitizeMap : List (String × JVal) → List (String × JVal)
  | [] => []
  | (k, v) :: fs => (k, sanitize v) :: sanitizeMap fs

end

mutual

/-- No NaN or infinite floating value occurs anywhere in the value. -/
def JVal.clean : JVal → Bool
  | .jfloat .nan => false
  | .jfloat .pinf => false
  | .jfloat .ninf => false
  | .jarr xs => JVal.cleanSeq xs
  | .jobj fs => JVal.cleanMap fs
  | _ => true

/-- Cleanliness of every element of a sequence. -/
def JVal.cleanSeq : List JVal → Bool
  | [] => true
  | x :: xs => JVal.clean x && JVal.cleanSeq xs

/-- Cleanliness of every value of a mapping. -/
def JVal.cleanMap : List (String × JVal) → Bool
  | [] => true
  | (_, v) :: fs => JVal.clean v && JVal.cleanMap fs

end

/-- A column of a non-raising driver-scores result (empty on an exception). -/
def okCol (r : Except Unit DataFrame) (name : String) : List Cell :=
  match r with
  | .ok df => df.getCol name
  | .error _ => []

/-- The column names of a non-raising result (empty on an exception). -/
def okCols (r : Except Unit DataFrame) : List String :=
  match r with
  | .ok df => df.columns
  | .error _ => []

/-- A trivial stand-in for the external pandas query engine. -/
def qexecStub : DataFrame → String → Except Unit DataFrame := fun df _ => .ok df

deriving instance DecidableEq for Except

/-- The claim's wording of column discovery: the first pattern (in given
order) that matches anything wins, and for it the first column (in declared
order) containing it case-insensitively is returned. -/
def FirstMatchSpec (cols ps : List String) (c : String) : Prop :=
  ∃ p1 p p2, ps = p1 ++ p :: p2 ∧
    (∀ p' ∈ p1, ∀ col ∈ cols, matchesPat col p' = false) ∧
    ∃ c1 c2, cols = c1 ++ c :: c2 ∧ matchesPat c p = true ∧
      ∀ col ∈ c1, matchesPat col p = false

/-- The C4 fixture: three trips, drivers A, A, B, distances 100, 300, 50. -/
def dfC4 : DataFrame :=
  ⟨[("Motorista", [.str "A", .str "A", .str "B"]),
    ("Distancia", [.val (.num 100), .val (.num 300), .val (.num 50)])]⟩

/-- A table loaded before the failing reload of C8; all-text so that the
whole summary computation stays in the exactly-representable fragment. -/
def dfPrior : DataFrame := ⟨[("Motorista", [.str "A", .str "B"])]⟩

/-- A processor that has successfully loaded `dfPrior`. -/
def pPrior : DataProcessor :=
  (load_data DataProcessor.init "dados/viagens_2024.xlsx" (some dfPrior)).2

/-- The C7 fixture: a text group column, a text metric column and a numeric
metric column. -/
def dfC7 : DataFrame :=
  ⟨[("Grupo", [.str "g2", .str "g1", .str "g2"]),
    ("Texto", [.str "x", .str "y", .str "z"]),
    ("Valor", [.val (.num 1), .val (.num 2), .val (.num 3)])]⟩

/-- The C5 fixture: driver A has only a missing distance, driver B has 100. -/
def dfC5a : DataFrame :=
  ⟨[("Motorista", [.str "A", .str "B"]),
    ("Distancia", [.val .nan, .val (.num 100)])]⟩

/-- The C5 all-missing fixture: the distance is missing for every driver. -/
def dfC5b : DataFrame :=
  ⟨[("Motorista", [.str "A", .str "B"]),
    ("Distancia", [.val .nan, .val .nan])]⟩

/-- The C6 fixture: distance totals 0 and -10, so their maximum is 0. -/
def dfC6 : DataFrame :=
  ⟨[("Motorista", [.str "A", .str "B"]),
    ("Distancia", [.val (.num 0), .val (.num (-10))])]⟩

/-- The C1 fixture: a driver column and a time column only. -/
def dfC1 : DataFrame :=
  ⟨[("Motorista", [.str "A", .str "B"]),
    ("Tempo", [.val (.num 10), .val (.num 30)])]⟩

/-- Reduction of a successful bind, used to evaluate the monadic pipeline. -/
theorem except_bind_ok {e a b : Type} (x : a) (f : a → Except e b) :
    (Except.ok x : Except e a) >>= f = f x := rfl

/-- Reduction of a raising bind. -/
theorem except_bind_err {e a b : Type} (x : e) (f : a → Except e b) :
    (Except.error x : Except e a) >>= f = Except.error x := rfl

/-- Pure is ok. -/
theorem except_pure {e a : Type} (x : a) : (pure x : Except e a) = Except.ok x := rfl

mutual

/-- Sanitized values contain no non-finite floating value. -/
theorem sanitize_clean : ∀ x : JVal, JVal.clean (sanitize x) = true
  | .null => rfl
  | .jbool _ => rfl
  | .jint _ => rfl
  | .jfloat (.num _) => rfl
  | .jfloat .nan => rfl
  | .jfloat .pinf => rfl
  | .jfloat .ninf => rfl
  | .jstr _ => rfl
  | .jarr xs => by simpa [sanitize, JVal.clean] using sanitizeSeq_clean xs
  | .jobj fs => by simpa [sanitize, JVal.clean] using sanitizeMap_clean fs

/-- Sequence version of `sanitize_clean`. -/
theorem sanitizeSeq_clean : ∀ xs : List JVal, JVal.cleanSeq (sanitizeSeq xs) = true
  | [] => rfl
  | x :: xs => by
      simp only [sanitizeSeq, JVal.cleanSeq, Bool.and_eq_true]
      exact ⟨sanitize_clean x, sanitizeSeq_clean xs⟩

/-- Mapping version of `sanitize_clean`. -/
theorem sanitizeMap_clean : ∀ fs : List (String × JVal),
    JVal.cleanMap (sanitizeMap fs) = true
  | [] => rfl
  | (_, v) :: fs => by
      simp only [sanitizeMap, JVal.cleanMap, Bool.and_eq_true]
      exact ⟨sanitize_clean v, sanitizeMap_clean fs⟩

end

mutual

/-- Sanitization of an already-clean value is the identity. -/
theorem sanitize_of_clean : ∀ x : JVal, JVal.clean x = true → sanitize x = x
  | .null, _ => rfl
  | .jbool _, _ => rfl
  | .jint _, _ => rfl
  | .jfloat (.num _), _ => rfl
  | .jfloat .nan, h => by simp [JVal.clean] at h
  | .jfloat .pinf, h => by simp [JVal.clean] at h
  | .jfloat .ninf, h => by simp [JVal.clean] at h
  | .jstr _, _ => rfl
  | .jarr xs, h => by
      simp only [JVal.clean] at h
      simp only [sanitize, sanitizeSeq_of_clean xs h]
  | .jobj fs, h => by
      simp only [JVal.clean] at h
      simp only [sanitize, sanitizeMap_of_clean fs h]

/-- Sequence version of `sanitize_of_clean`. -/
theorem sanitizeSeq_of_clean : ∀ xs : List JVal,
    JVal.cleanSeq xs = true → sanitizeSeq xs = xs
  | [], _ => rfl
  | x :: xs, h => by
      simp only [JVal.cleanSeq, Bool.and_eq_true] at h
      simp only [sanitizeSeq, sanitize_of_clean x h.1, sanitizeSeq_of_clean xs h.2]

/-- Mapping version of `sanitize_of_clean`. -/
theorem sanitizeMap_of_clean : ∀ fs : List (String × JVal),
    JVal.cleanMap fs = true → sanitizeMap fs = fs
  | [], _ => rfl
  | (_, v) :: fs, h => by
      simp only [JVal.cleanMap, Bool.and_eq_true] at h
      simp only [sanitizeMap, sanitize_of_clean v h.1, sanitizeMap_of_clean fs h.2]

end

/-- C3: the sanitizer is total (a Lean function), idempotent, recursively
replaces every NaN or infinite floating value inside mappings, sequences and
scalars with the null marker (witnessed by the cleanliness invariant and a
nested concrete case), and passes integers and all other scalar types
through unchanged. -/
theorem claim_C3 :
    (∀ x : JVal, sanitize (sanitize x) = sanitize x) ∧
    (∀ x : JVal, JVal.clean (sanitize x) = true) ∧
    sanitize (.jfloat .nan) = .null ∧
    sanitize (.jfloat .pinf) = .null ∧
    sanitize (.jfloat .ninf) = .null ∧
    (∀ n : ℤ, sanitize (.jint n) = .jint n) ∧
    (∀ q : ℚ, sanitize (.jfloat (.num q)) = .jfloat (.num q)) ∧
    (∀ s : String, sanitize (.jstr s) = .jstr s) ∧
    (∀ b : Bool, sanitize (.jbool b) = .jbool b) ∧
    sanitize .null = .null ∧
    sanitize (.jobj [("a", .jarr [.jfloat .nan, .jint 3, .jfloat .pinf]),
                     ("b", .jfloat .ninf)]) =
      .jobj [("a", .jarr [.null, .jint 3, .null]), ("b", .null)] :=
  ⟨fun x => sanitize_of_clean (sanitize x) (sanitize_clean x),
   sanitize_clean,
   rfl, rfl, rfl, fun _ => rfl, fun _ => rfl, fun _ => rfl, fun _ => rfl, rfl, rfl⟩

set_option maxHeartbeats 2000000 in
/-- C4: on the three-row table with drivers A, A, B and distances
100, 300, 50, driver A gets 2 trips, total distance 400 and mean 200,
driver B gets 1 trip, total 50 and mean 50, and the normalized
distancia_total scores are 100 for A and 12.5 for B. -/
theorem claim_C4 :
    calculate_driver_scores (some dfC4) =
      .ok ⟨[
        ("motorista", [.str "A", .str "B"]),
        ("total_viagens", [.val (.num 2), .val (.num 1)]),
        ("distancia_total", [.val (.num 400), .val (.num 50)]),
        ("distancia_media", [.val (.num 200), .val (.num 50)]),
        ("distancia_total_norm", [.val (.num 100), .val (.num (25/2))]),
        ("total_viagens_norm", [.val (.num 100), .val (.num 50)]),
        ("score_geral", [.val (.num 100), .val (.num (125/4))])]⟩ := by
  have hdrv : find_column_by_pattern (some dfC4)
      ["motorista", "condutor", "driver"] = some "Motorista" := by decide
  have hdist : find_column_by_pattern (some dfC4)
      ["distancia", "km", "quilometragem", "distance"] = some "Distancia" := by decide
  have htime : find_column_by_pattern (some dfC4)
      ["tempo", "duracao", "duration", "time"] = none := by decide
  have hfuel : find_column_by_pattern (some dfC4)
      ["consumo", "combustivel", "fuel", "consumption"] = none := by decide
  have hevt : find_column_by_pattern (some dfC4)
      ["infracoes", "eventos", "violations", "events"] = none := by decide
  have hcols : dfC4.cols =
      [("Motorista", [.str "A", .str "A", .str "B"]),
       ("Distancia", [.val (.num 100), .val (.num 300), .val (.num 50)])] := by decide
  have hm1 : metricFor dfC4 "Motorista" (.str "A") "Distancia" =
      [.val (.num 100), .val (.num 300)] := by decide
  have hm2 : metricFor dfC4 "Motorista" (.str "B") "Distancia" =
      [.val (.num 50)] := by decide
  norm_num +decide only [hdrv, hdist, htime, hfuel, hevt, hcols, hm1, hm2,
    calculate_driver_scores, addRoleCols, mapExcept, foldExcept,
    uniqueCells, cellSum, cellMean, cellMax,
    cellGtZero, cellArith, Cell.peq, Cell.strsOf, Cell.valsOf, Cell.num, Cell.na,
    PVal.seriesSum, PVal.seriesMean, PVal.seriesMax, PVal.dropNan, PVal.isNan,
    PVal.add, PVal.div, PVal.mul, PVal.sub, PVal.neg, PVal.leB, PVal.gtZero,
    DataFrame.getCol, DataFrame.setCol, DataFrame.columns, DataFrame.empty, replaceFirst,
    except_bind_ok, except_bind_err, except_pure,
    List.range_succ, List.any_cons, List.any_nil, List.filter_cons, List.filter_nil,
    List.filterMap_cons, List.filterMap_nil, List.zip_cons_cons, List.zip_nil_right,
    List.zip_nil_left, List.foldl_cons, List.foldl_nil, List.length_cons, List.length_nil,
    List.isEmpty_cons, List.isEmpty_nil, List.find?_cons, List.find?_nil,
    List.mem_cons, List.mem_singleton, List.reverse_cons, List.reverse_nil,
    List.append_nil, List.nil_append, List.cons_append, List.map_cons, List.map_nil,
    List.append_eq, List.get?_cons_zero, List.get?_cons_succ, List.not_mem_nil,
    reduceIte, String.reduceEq, Char.reduceEq, Cell.str.injEq, Cell.val.injEq,
    PVal.num.injEq, Prod.mk.injEq, Option.some.injEq, decide_True, decide_False,
    or_false, false_or, or_true, true_or, not_false_iff, ne_eq, and_true, true_and,
    and_false, false_and, Bool.not_true, Bool.not_false, reduceCtorEq,
    String.reduceAppend, List.forall_mem_cons, forall_eq, forall_true_iff,
    ite_true, ite_false, dite_true, dite_false, if_true, if_false]
  rfl

/-- C9: whenever no column matches any driver-identity pattern, the result
is the single-element error record flagging the missing driver column,
returned normally (no exception is raised). -/
theorem claim_C9 (df : DataFrame)
    (h : find_column_by_pattern (some df) ["motorista", "condutor", "driver"] = none) :
    calculate_driver_scores (some df) = .ok driverErrorFrame := by
  simp only [calculate_driver_scores, h]
  rfl

/-- Witness for C9 at a table whose only column matches no pattern. -/
theorem claim_C9_witness :
    find_column_by_pattern (some ⟨[("Placa", [.str "XYZ"])]⟩)
        ["motorista", "condutor", "driver"] = none ∧
    calculate_driver_scores (some ⟨[("Placa", [.str "XYZ"])]⟩) =
      .ok driverErrorFrame :=
  ⟨by decide, claim_C9 _ (by decide)⟩

/-- C10: with no table loaded every public query operation returns an empty
result instead of raising, and on a loaded table a missing column gives the
empty list from get_column_data. -/
theorem claim_C10 (p : DataProcessor) (hp : p.data = none) (q : String)
    (qexec : DataFrame → String → Except Unit DataFrame) (n : Nat)
    (gb mc col : String) (f : AggFunc) (df : DataFrame)
    (hcol : col ∉ df.columns) :
    query_data p q qexec = DataFrame.empty ∧
    get_column_data p col = [] ∧
    get_data_sample p n = DataFrame.empty ∧
    calculate_metrics p.data gb mc f = DataFrame.empty ∧
    calculate_driver_scores p.data = .ok DataFrame.empty ∧
    get_column_data { p with data := some df } col = [] := by
  rw [hp]
  refine ⟨?_, ?_, ?_, rfl, rfl, ?_⟩
  · simp [query_data, hp]
  · simp [get_column_data, hp]
  · simp [get_data_sample, hp]
  · simp [get_column_data, hcol]

/-- Witness for C10 on the freshly constructed processor and a one-column
table not containing the requested column. -/
theorem claim_C10_witness :
    DataProcessor.init.data = none ∧
    ("Valor" ∉ (⟨[("Placa", [.str "X"])]⟩ : DataFrame).columns) ∧
    (query_data DataProcessor.init "Placa == 1" qexecStub = DataFrame.empty ∧
     get_column_data DataProcessor.init "Valor" = [] ∧
     get_data_sample DataProcessor.init 5 = DataFrame.empty ∧
     calculate_metrics DataProcessor.init.data "Placa" "Valor" .mean = DataFrame.empty ∧
     calculate_driver_scores DataProcessor.init.data = .ok DataFrame.empty ∧
     get_column_data { DataProcessor.init with data := some ⟨[("Placa", [.str "X"])]⟩ }
       "Valor" = []) :=
  ⟨rfl, by decide,
   claim_C10 DataProcessor.init rfl "Placa == 1" qexecStub 5 "Placa" "Valor" "Valor"
     .mean ⟨[("Placa", [.str "X"])]⟩ (by decide)⟩

/-- First-occurrence characterization of `List.find?` on string lists. -/
theorem find_eq_some_first (f : String → Bool) :
    ∀ (l : List String) (c : String),
      l.find? f = some c ↔
        ∃ l1 l2, l = l1 ++ c :: l2 ∧ f c = true ∧ ∀ x ∈ l1, f x = false := by
  intro l
  induction l with
  | nil =>
      intro c
      constructor
      · intro h; simp [List.find?] at h
      · rintro ⟨l1, l2, h, -, -⟩; exact absurd h (by simp)
  | cons a as ih =>
      intro c
      cases hfa : f a with
      | true =>
          have hstep : (a :: as).find? f = some a := by simp [List.find?, hfa]
          rw [hstep]
          constructor
          · intro h
            obtain rfl : a = c := by injection h
            exact ⟨[], as, rfl, hfa, by intro x hx; cases hx⟩
          · rintro ⟨l1, l2, heq, hfc, hall⟩
            cases l1 with
            | nil =>
                obtain ⟨rfl, rfl⟩ : a = c ∧ as = l2 := by
                  constructor <;> injection heq
                rfl
            | cons b l1 =>
                obtain ⟨rfl, -⟩ : a = b ∧ as = l1 ++ c :: l2 := by
                  constructor <;> injection heq
                have := hall a (by simp)
                rw [hfa] at this
                cases this
      | false =>
          have hstep : (a :: as).find? f = as.find? f := by simp [List.find?, hfa]
          rw [hstep, ih]
          constructor
          · rintro ⟨l1, l2, heq, hfc, hall⟩
            refine ⟨a :: l1, l2, by rw [heq]; rfl, hfc, ?_⟩
            intro x hx
            rcases List.mem_cons.mp hx with rfl | hx'
            · exact hfa
            · exact hall x hx'
          · rintro ⟨l1, l2, heq, hfc, hall⟩
            cases l1 with
            | nil =>
                obtain ⟨rfl, -⟩ : a = c ∧ as = l2 := by
                  constructor <;> injection heq
                rw [hfa] at hfc
                cases hfc
            | cons b l1 =>
                obtain ⟨-, h2⟩ : a = b ∧ as = l1 ++ c :: l2 := by
                  constructor <;> injection heq
                exact ⟨l1, l2, h2, hfc, fun x hx => hall x (by simp [hx])⟩

/-- Pattern-priority characterization of the double loop: a hit is produced
by the first pattern for which any column matches. -/
theorem findColAux_eq_some (cols : List String) :
    ∀ (ps : List String) (c : String),
      findColAux cols ps = some c ↔
        ∃ p1 p p2, ps = p1 ++ p :: p2 ∧
          (∀ p' ∈ p1, ∀ col ∈ cols, matchesPat col p' = false) ∧
          cols.find? (fun col => matchesPat col p) = some c := by
  intro ps
  induction ps with
  | nil =>
      intro c
      constructor
      · intro h; simp [findColAux] at h
      · rintro ⟨p1, p, p2, heq, -, -⟩; exact absurd heq (by simp)
  | cons p ps ih =>
      intro c
      cases hf : cols.find? (fun col => matchesPat col p) with
      | some c0 =>
          have hstep : findColAux cols (p :: ps) = some c0 := by
            simp [findColAux, hf]
          rw [hstep]
          constructor
          · intro h
            obtain rfl : c0 = c := by injection h
            exact ⟨[], p, ps, rfl, fun x hx => absurd hx (List.not_mem_nil x), hf⟩
          · rintro ⟨p1, p', p2, heq, hnone, hfind⟩
            cases p1 with
            | nil =>
                obtain ⟨rfl, -⟩ : p = p' ∧ ps = p2 := by
                  constructor <;> injection heq
                rw [hf] at hfind
                injection hfind with h
                rw [h]
            | cons b p1 =>
                obtain ⟨rfl, -⟩ : p = b ∧ ps = p1 ++ p' :: p2 := by
                  constructor <;> injection heq
                have hnp : cols.find? (fun col => matchesPat col p) = none := by
                  rw [List.find?_eq_none]
                  intro x hx
                  simp [hnone p (by simp) x hx]
                rw [hf] at hnp
                cases hnp
      | none =>
          have hstep : findColAux cols (p :: ps) = findColAux cols ps := by
            simp [findColAux, hf]
          rw [hstep, ih]
          have hforall : ∀ col ∈ cols, matchesPat col p = false := by
            intro x hx
            have := List.find?_eq_none.mp hf x hx
            simpa using this
          constructor
          · rintro ⟨p1, p', p2, heq, hnone, hfind⟩
            refine ⟨p :: p1, p', p2, by rw [heq]; rfl, ?_, hfind⟩
            intro q hq
            rcases List.mem_cons.mp hq with rfl | hq'
            · exact hforall
            · exact hnone q hq'
          · rintro ⟨p1, p', p2, heq, hnone, hfind⟩
            cases p1 with
            | nil =>
                obtain ⟨rfl, -⟩ : p = p' ∧ ps = p2 := by
                  constructor <;> injection heq
                have hc := List.mem_of_find?_eq_some hfind
                have := List.find?_some hfind
                rw [hforall c hc] at this
                cases this
            | cons b p1 =>
                obtain ⟨-, h2⟩ : p = b ∧ ps = p1 ++ p' :: p2 := by
                  constructor <;> injection heq
                exact ⟨p1, p', p2, h2, fun q hq => hnone q (by simp [hq]), hfind⟩

/-- The double loop returns none exactly when no column matches any
pattern. -/
theorem findColAux_eq_none (cols : List String) :
    ∀ ps : List String,
      findColAux cols ps = none ↔
        ∀ p ∈ ps, ∀ col ∈ cols, matchesPat col p = false := by
  intro ps
  induction ps with
  | nil => simp [findColAux]
  | cons p ps ih =>
      cases hf : cols.find? (fun col => matchesPat col p) with
      | some c0 =>
          have hstep : findColAux cols (p :: ps) = some c0 := by
            simp [findColAux, hf]
          rw [hstep]
          constructor
          · intro h; cases h
          · intro h
            have hc := List.mem_of_find?_eq_some hf
            have := List.find?_some hf
            rw [h p (by simp) c0 hc] at this
            cases this
      | none =>
          have hstep : findColAux cols (p :: ps) = findColAux cols ps := by
            simp [findColAux, hf]
          rw [hstep, ih]
          constructor
          · intro h q hq
            rcases List.mem_cons.mp hq with rfl | hq'
            · intro col hcol
              have := List.find?_eq_none.mp hf col hcol
              simpa using this
            · exact h q hq'
          · intro h q hq
            exact h q (by simp [hq])

/-- The fuzzy match accepts exactly the case-insensitive substring
relation. -/
theorem matchesPat_iff (col pat : String) :
    matchesPat col pat = true ↔ lowerChars pat <:+: lowerChars col := by
  unfold matchesPat strHasSub
  rw [List.any_eq_true]
  constructor
  · rintro ⟨i, -, hpre⟩
    obtain ⟨t, ht⟩ := List.isPrefixOf_iff_prefix.mp hpre
    exact ⟨(lowerChars col).take i, t, by
      conv_rhs => rw [← List.take_append_drop i (lowerChars col)]
      rw [← ht, List.append_assoc]⟩
  · rintro ⟨s, t, heq⟩
    refine ⟨s.length, List.mem_range.mpr ?_, ?_⟩
    · have : s.length ≤ (lowerChars col).length := by
        rw [← heq]; simp
      omega
    · apply List.isPrefixOf_iff_prefix.mpr
      refine ⟨t, ?_⟩
      rw [← heq, List.append_assoc, List.drop_left]

/-- C2: _find_column_by_pattern iterates patterns in given order and, per
pattern, columns in declared order, returning the first column containing
the pattern as a case-insensitive substring, and none when nothing matches;
on columns Motorista, Distancia_KM with patterns distancia, motorista the
result is Distancia_KM. -/
theorem claim_C2 :
    (∀ (df : DataFrame) (ps : List String) (c : String),
        find_column_by_pattern (some df) ps = some c ↔
          FirstMatchSpec df.columns ps c) ∧
    (∀ (df : DataFrame) (ps : List String),
        find_column_by_pattern (some df) ps = none ↔
          ∀ p ∈ ps, ∀ col ∈ df.columns, matchesPat col p = false) ∧
    (∀ col pat : String,
        matchesPat col pat = true ↔ lowerChars pat <:+: lowerChars col) ∧
    find_column_by_pattern
        (some ⟨[("Motorista", [.str "M"]), ("Distancia_KM", [.val (.num 1)])]⟩)
        ["distancia", "motorista"] = some "Distancia_KM" := by
  refine ⟨?_, ?_, matchesPat_iff, by decide⟩
  · intro df ps c
    have h0 : find_column_by_pattern (some df) ps = findColAux df.columns ps := rfl
    rw [h0, findColAux_eq_some]
    unfold FirstMatchSpec
    apply exists_congr; intro p1
    apply exists_congr; intro p
    apply exists_congr; intro p2
    apply and_congr_right; intro _
    apply and_congr_right; intro _
    exact find_eq_some_first _ _ _
  · intro df ps
    have h0 : find_column_by_pattern (some df) ps = findColAux df.columns ps := rfl
    rw [h0, findColAux_eq_none]

/-- C8 counterexample: a failing load preserves the four listed components
but the stored file path is overwritten before the parse is attempted, so
the processor state as a whole is not preserved — refuting the claim that
no part of the prior state is partially overwritten. -/
theorem claim_C8_counterexample :
    pPrior.file_path = some "dados/viagens_2024.xlsx" ∧
    (load_data pPrior "dados/corrompido.xlsx" none).1 = false ∧
    (load_data pPrior "dados/corrompido.xlsx" none).2.file_path =
      some "dados/corrompido.xlsx" ∧
    (load_data pPrior "dados/corrompido.xlsx" none).2 ≠ pPrior := by
  decide

/-- C8 amended: a failing load reports False and leaves the table, the
metadata, the column types and the summary statistics unchanged, but the
stored file path is replaced by the path of the failing file. -/
theorem claim_C8_amended (p : DataProcessor) (path : String) :
    (load_data p path none).1 = false ∧
    (load_data p path none).2.data = p.data ∧
    (load_data p path none).2.metadata = p.metadata ∧
    (load_data p path none).2.column_types = p.column_types ∧
    (load_data p path none).2.summary_stats = p.summary_stats ∧
    (load_data p path none).2.file_path = some path :=
  ⟨rfl, rfl, rfl, rfl, rfl, rfl⟩

/-- C7 counterexample: the missing-column failure and the invalid-mean
failure return the very same plain empty DataFrame — the result carries no
ColumnNotFound or InvalidAggregation tag and the two failure kinds are
indistinguishable to the caller. -/
theorem claim_C7_counterexample :
    calculate_metrics (some dfC7) "Grupo" "Nada" .mean = DataFrame.empty ∧
    calculate_metrics (some dfC7) "Grupo" "Texto" .mean = DataFrame.empty ∧
    calculate_metrics (some dfC7) "Grupo" "Nada" .mean =
      calculate_metrics (some dfC7) "Grupo" "Texto" .mean := by
  decide

/-- C7 amended: calculate_metrics returns the untagged empty table whenever
either column is absent, and when mean is applied to a non-numeric column
(the pandas exception is caught); count succeeds on any column including
non-numeric ones, and sum, min and max on an all-text column also succeed
(concatenation and the lexicographic minimum and maximum respectively)
rather than failing. -/
theorem claim_C7_amended :
    (∀ (df : DataFrame) (gb mc : String) (f : AggFunc),
        gb ∉ df.columns ∨ mc ∉ df.columns →
          calculate_metrics (some df) gb mc f = DataFrame.empty) ∧
    calculate_metrics (some dfC7) "Grupo" "Texto" .mean = DataFrame.empty ∧
    calculate_metrics (some dfC7) "Grupo" "Texto" .count =
      ⟨[("Grupo", [.str "g1", .str "g2"]), ("Texto", [.val (.num 1), .val (.num 2)])]⟩ ∧
    calculate_metrics (some dfC7) "Grupo" "Texto" .sum =
      ⟨[("Grupo", [.str "g1", .str "g2"]), ("Texto", [.str "y", .str "xz"])]⟩ ∧
    calculate_metrics (some dfC7) "Grupo" "Texto" .min =
      ⟨[("Grupo", [.str "g1", .str "g2"]), ("Texto", [.str "y", .str "x"])]⟩ ∧
    calculate_metrics (some dfC7) "Grupo" "Texto" .max =
      ⟨[("Grupo", [.str "g1", .str "g2"]), ("Texto", [.str "y", .str "z"])]⟩ ∧
    calculate_metrics (some dfC7) "Grupo" "Valor" .count =
      ⟨[("Grupo", [.str "g1", .str "g2"]), ("Valor", [.val (.num 1), .val (.num 2)])]⟩ := by
  refine ⟨?_, by decide, by decide, by decide, by decide, by decide, by decide⟩
  intro df gb mc f h
  simp only [calculate_metrics]
  rw [if_pos h]

/-- Witness for C7 amended at a concrete missing column. -/
theorem claim_C7_amended_witness :
    ("Grupo" ∉ dfC7.columns ∨ "Nada" ∉ dfC7.columns) ∧
    calculate_metrics (some dfC7) "Grupo" "Nada" .sum = DataFrame.empty :=
  ⟨Or.inr (by decide), (claim_C7_amended.1 dfC7 "Grupo" "Nada" .sum (Or.inr (by decide)))⟩

set_option maxHeartbeats 2000000 in
/-- C5 counterexample: the sum aggregate of an all-missing group is 0, not a
missing value; that 0 is normalized and contributes to the overall score
(driver A scores 50, not the 100 the claim's exclusion would give); and
when every driver lacks the metric the columns stay in the schema. -/
theorem claim_C5_counterexample :
    okCol (calculate_driver_scores (some dfC5a)) "distancia_total" =
      [.val (.num 0), .val (.num 100)] ∧
    okCol (calculate_driver_scores (some dfC5a)) "score_geral" =
      [.val (.num 50), .val (.num 100)] ∧
    okCol (calculate_driver_scores (some dfC5a)) "score_geral" ≠
      [.val (.num 100), .val (.num 100)] ∧
    "distancia_total" ∈ okCols (calculate_driver_scores (some dfC5b)) ∧
    okCol (calculate_driver_scores (some dfC5b)) "distancia_total" =
      [.val (.num 0), .val (.num 0)] := by
  have ha : calculate_driver_scores (some dfC5a) =
      .ok ⟨[
        ("motorista", [.str "A", .str "B"]),
        ("total_viagens", [.val (.num 1), .val (.num 1)]),
        ("distancia_total", [.val (.num 0), .val (.num 100)]),
        ("distancia_media", [.val .nan, .val (.num 100)]),
        ("distancia_total_norm", [.val (.num 0), .val (.num 100)]),
        ("total_viagens_norm", [.val (.num 100), .val (.num 100)]),
        ("score_geral", [.val (.num 50), .val (.num 100)])]⟩ := by
    have hm1 : metricFor dfC5a "Motorista" (.str "A") "Distancia" =
        [.val .nan] := by decide
    have hm2 : metricFor dfC5a "Motorista" (.str "B") "Distancia" =
        [.val (.num 100)] := by decide
    have h1 : findColAux ["Motorista", "Distancia"]
        ["motorista", "condutor", "driver"] = some "Motorista" := by decide
    have h2 : findColAux ["Motorista", "Distancia"]
        ["distancia", "km", "quilometragem", "distance"] = some "Distancia" := by decide
    have h3 : findColAux ["Motorista", "Distancia"]
        ["tempo", "duracao", "duration", "time"] = none := by decide
    have h4 : findColAux ["Motorista", "Distancia"]
        ["consumo", "combustivel", "fuel", "consumption"] = none := by decide
    have h5 : findColAux ["Motorista", "Distancia"]
        ["infracoes", "eventos", "violations", "events"] = none := by decide
    have hcs : dfC5a.cols =
        [("Motorista", [.str "A", .str "B"]),
         ("Distancia", [.val .nan, .val (.num 100)])] := by decide
    norm_num +decide only [h1, h2, h3, h4, h5, hm1, hm2, hcs,
      calculate_driver_scores, find_column_by_pattern, addRoleCols, mapExcept, foldExcept,
      uniqueCells, cellSum, cellMean, cellMax,
      cellGtZero, cellArith, Cell.peq, Cell.strsOf, Cell.valsOf, Cell.num, Cell.na,
      PVal.seriesSum, PVal.seriesMean, PVal.seriesMax, PVal.dropNan, PVal.isNan,
      PVal.add, PVal.div, PVal.mul, PVal.sub, PVal.neg, PVal.leB, PVal.gtZero,
      DataFrame.getCol, DataFrame.setCol, DataFrame.columns, DataFrame.empty, replaceFirst,
      except_bind_ok, except_bind_err, except_pure,
      List.range_succ, List.any_cons, List.any_nil, List.filter_cons, List.filter_nil,
      List.filterMap_cons, List.filterMap_nil, List.zip_cons_cons, List.zip_nil_right,
      List.zip_nil_left, List.foldl_cons, List.foldl_nil, List.length_cons, List.length_nil,
      List.isEmpty_cons, List.isEmpty_nil, List.find?_cons, List.find?_nil,
      List.mem_cons, List.mem_singleton, List.reverse_cons, List.reverse_nil,
      List.append_nil, List.nil_append, List.cons_append, List.map_cons, List.map_nil,
      List.append_eq, List.get?_cons_zero, List.get?_cons_succ, List.not_mem_nil,
      reduceIte, String.reduceEq, Char.reduceEq, Cell.str.injEq, Cell.val.injEq,
      PVal.num.injEq, Prod.mk.injEq, Option.some.injEq, decide_True, decide_False,
      or_false, false_or, or_true, true_or, not_false_iff, ne_eq, and_true, true_and,
      and_false, false_and, Bool.not_true, Bool.not_false, reduceCtorEq,
      String.reduceAppend, List.forall_mem_cons, forall_eq, forall_true_iff,
      ite_true, ite_false, dite_true, dite_false, if_true, if_false]
  have hb : calculate_driver_scores (some dfC5b) =
      .ok ⟨[
        ("motorista", [.str "A", .str "B"]),
        ("total_viagens", [.val (.num 1), .val (.num 1)]),
        ("distancia_total", [.val (.num 0), .val (.num 0)]),
        ("distancia_media", [.val .nan, .val .nan]),
        ("total_viagens_norm", [.val (.num 100), .val (.num 100)]),
        ("score_geral", [.val (.num 50), .val (.num 50)])]⟩ := by
    have hm1 : metricFor dfC5b "Motorista" (.str "A") "Distancia" =
        [.val .nan] := by decide
    have hm2 : metricFor dfC5b "Motorista" (.str "B") "Distancia" =
        [.val .nan] := by decide
    have h1 : findColAux ["Motorista", "Distancia"]
        ["motorista", "condutor", "driver"] = some "Motorista" := by decide
    have h2 : findColAux ["Motorista", "Distancia"]
        ["distancia", "km", "quilometragem", "distance"] = some "Distancia" := by decide
    have h3 : findColAux ["Motorista", "Distancia"]
        ["tempo", "duracao", "duration", "time"] = none := by decide
    have h4 : findColAux ["Motorista", "Distancia"]
        ["consumo", "combustivel", "fuel", "consumption"] = none := by decide
    have h5 : findColAux ["Motorista", "Distancia"]
        ["infracoes", "eventos", "violations", "events"] = none := by decide
    have hcs : dfC5b.cols =
        [("Motorista", [.str "A", .str "B"]),
         ("Distancia", [.val .nan, .val .nan])] := by decide
    norm_num +decide only [h1, h2, h3, h4, h5, hm1, hm2, hcs,
      calculate_driver_scores, find_column_by_pattern, addRoleCols, mapExcept, foldExcept,
      uniqueCells, cellSum, cellMean, cellMax,
      cellGtZero, cellArith, Cell.peq, Cell.strsOf, Cell.valsOf, Cell.num, Cell.na,
      PVal.seriesSum, PVal.seriesMean, PVal.seriesMax, PVal.dropNan, PVal.isNan,
      PVal.add, PVal.div, PVal.mul, PVal.sub, PVal.neg, PVal.leB, PVal.gtZero,
      DataFrame.getCol, DataFrame.setCol, DataFrame.columns, DataFrame.empty, replaceFirst,
      except_bind_ok, except_bind_err, except_pure,
      List.range_succ, List.any_cons, List.any_nil, List.filter_cons, List.filter_nil,
      List.filterMap_cons, List.filterMap_nil, List.zip_cons_cons, List.zip_nil_right,
      List.zip_nil_left, List.foldl_cons, List.foldl_nil, List.length_cons, List.length_nil,
      List.isEmpty_cons, List.isEmpty_nil, List.find?_cons, List.find?_nil,
      List.mem_cons, List.mem_singleton, List.reverse_cons, List.reverse_nil,
      List.append_nil, List.nil_append, List.cons_append, List.map_cons, List.map_nil,
      List.append_eq, List.get?_cons_zero, List.get?_cons_succ, List.not_mem_nil,
      reduceIte, String.reduceEq, Char.reduceEq, Cell.str.injEq, Cell.val.injEq,
      PVal.num.injEq, Prod.mk.injEq, Option.some.injEq, decide_True, decide_False,
      or_false, false_or, or_true, true_or, not_false_iff, ne_eq, and_true, true_and,
      and_false, false_and, Bool.not_true, Bool.not_false, reduceCtorEq,
      String.reduceAppend, List.forall_mem_cons, forall_eq, forall_true_iff,
      ite_true, ite_false, dite_true, dite_false, if_true, if_false]
  rw [ha, hb]
  refine ⟨by decide, by decide, by decide, by decide, by decide⟩

set_option maxHeartbeats 2000000 in
/-- C5 amended: when the discovered distance column is entirely missing for
driver A and positive for driver B, the sum aggregate gives A the number 0
(missing values are treated as zero by the sum, not excluded), the mean
aggregate gives A NaN, the zero total is normalized and enters A's overall
score (A scores 50, the mean of 0 and 100), and the metric columns stay in
the schema (see the counterexample for the all-missing table). -/
theorem claim_C5_amended (q : ℚ) (hq : 0 < q) :
    calculate_driver_scores (some ⟨[
        ("Motorista", [.str "A", .str "B"]),
        ("Distancia", [.val .nan, .val (.num q)])]⟩) =
      .ok ⟨[
        ("motorista", [.str "A", .str "B"]),
        ("total_viagens", [.val (.num 1), .val (.num 1)]),
        ("distancia_total", [.val (.num 0), .val (.num q)]),
        ("distancia_media", [.val .nan, .val (.num q)]),
        ("distancia_total_norm", [.val (.num 0), .val (.num 100)]),
        ("total_viagens_norm", [.val (.num 100), .val (.num 100)]),
        ("score_geral", [.val (.num 50), .val (.num 100)])]⟩ := by
  have h1 : findColAux ["Motorista", "Distancia"]
      ["motorista", "condutor", "driver"] = some "Motorista" := by decide
  have h2 : findColAux ["Motorista", "Distancia"]
      ["distancia", "km", "quilometragem", "distance"] = some "Distancia" := by decide
  have h3 : findColAux ["Motorista", "Distancia"]
      ["tempo", "duracao", "duration", "time"] = none := by decide
  have h4 : findColAux ["Motorista", "Distancia"]
      ["consumo", "combustivel", "fuel", "consumption"] = none := by decide
  have h5 : findColAux ["Motorista", "Distancia"]
      ["infracoes", "eventos", "violations", "events"] = none := by decide
  norm_num +decide only [h1, h2, h3, h4, h5, hq, hq.le, hq.ne', div_self hq.ne',
    calculate_driver_scores, find_column_by_pattern, addRoleCols, mapExcept, foldExcept,
    metricFor, uniqueCells, cellSum, cellMean, cellMax,
    cellGtZero, cellArith, Cell.peq, Cell.strsOf, Cell.valsOf, Cell.num, Cell.na,
    PVal.seriesSum, PVal.seriesMean, PVal.seriesMax, PVal.dropNan, PVal.isNan,
    PVal.add, PVal.div, PVal.mul, PVal.sub, PVal.neg, PVal.leB, PVal.gtZero,
    DataFrame.getCol, DataFrame.setCol, DataFrame.columns, DataFrame.empty, replaceFirst,
    except_bind_ok, except_bind_err, except_pure,
    zero_add, add_zero, one_mul, mul_one, div_one, zero_div,
    List.range_succ, List.any_cons, List.any_nil, List.filter_cons, List.filter_nil,
    List.filterMap_cons, List.filterMap_nil, List.zip_cons_cons, List.zip_nil_right,
    List.zip_nil_left, List.foldl_cons, List.foldl_nil, List.length_cons, List.length_nil,
    List.isEmpty_cons, List.isEmpty_nil, List.find?_cons, List.find?_nil,
    List.mem_cons, List.mem_singleton, List.reverse_cons, List.reverse_nil,
    List.append_nil, List.nil_append, List.cons_append, List.map_cons, List.map_nil,
    List.append_eq, List.get?_cons_zero, List.get?_cons_succ, List.not_mem_nil,
    reduceIte, String.reduceEq, Char.reduceEq, Cell.str.injEq, Cell.val.injEq,
    PVal.num.injEq, Prod.mk.injEq, Option.some.injEq, decide_True, decide_False,
    or_false, false_or, or_true, true_or, not_false_iff, ne_eq, and_true, true_and,
    and_false, false_and, Bool.not_true, Bool.not_false, reduceCtorEq,
    String.reduceAppend, List.forall_mem_cons, forall_eq, forall_true_iff,
    ite_true, ite_false, dite_true, dite_false, if_true, if_false]
  rfl

/-- Witness for C5 amended at q = 100. -/
theorem claim_C5_amended_witness :
    (0 : ℚ) < 100 ∧
    calculate_driver_scores (some ⟨[
        ("Motorista", [.str "A", .str "B"]),
        ("Distancia", [.val .nan, .val (.num 100)])]⟩) =
      .ok ⟨[
        ("motorista", [.str "A", .str "B"]),
        ("total_viagens", [.val (.num 1), .val (.num 1)]),
        ("distancia_total", [.val (.num 0), .val (.num 100)]),
        ("distancia_media", [.val .nan, .val (.num 100)]),
        ("distancia_total_norm", [.val (.num 0), .val (.num 100)]),
        ("total_viagens_norm", [.val (.num 100), .val (.num 100)]),
        ("score_geral", [.val (.num 50), .val (.num 100)])]⟩ :=
  ⟨by norm_num, claim_C5_amended 100 (by norm_num)⟩

set_option maxHeartbeats 2000000 in
/-- C6 counterexample: with distance totals 0 and -10 the metric maximum is
0, yet no normalized column is produced and the raw totals enter the
average — driver B scores 45, not the 50 that a normalized-to-0 metric
would give every driver. -/
theorem claim_C6_counterexample :
    "distancia_total_norm" ∉ okCols (calculate_driver_scores (some dfC6)) ∧
    okCol (calculate_driver_scores (some dfC6)) "score_geral" =
      [.val (.num 50), .val (.num 45)] ∧
    okCol (calculate_driver_scores (some dfC6)) "score_geral" ≠
      [.val (.num 50), .val (.num 50)] := by
  have hfr : calculate_driver_scores (some dfC6) =
      .ok ⟨[
        ("motorista", [.str "A", .str "B"]),
        ("total_viagens", [.val (.num 1), .val (.num 1)]),
        ("distancia_total", [.val (.num 0), .val (.num (-10))]),
        ("distancia_media", [.val (.num 0), .val (.num (-10))]),
        ("total_viagens_norm", [.val (.num 100), .val (.num 100)]),
        ("score_geral", [.val (.num 50), .val (.num 45)])]⟩ := by
    have hm1 : metricFor dfC6 "Motorista" (.str "A") "Distancia" =
        [.val (.num 0)] := by decide
    have hm2 : metricFor dfC6 "Motorista" (.str "B") "Distancia" =
        [.val (.num (-10))] := by decide
    have h1 : findColAux ["Motorista", "Distancia"]
        ["motorista", "condutor", "driver"] = some "Motorista" := by decide
    have h2 : findColAux ["Motorista", "Distancia"]
        ["distancia", "km", "quilometragem", "distance"] = some "Distancia" := by decide
    have h3 : findColAux ["Motorista", "Distancia"]
        ["tempo", "duracao", "duration", "time"] = none := by decide
    have h4 : findColAux ["Motorista", "Distancia"]
        ["consumo", "combustivel", "fuel", "consumption"] = none := by decide
    have h5 : findColAux ["Motorista", "Distancia"]
        ["infracoes", "eventos", "violations", "events"] = none := by decide
    have hcs : dfC6.cols =
        [("Motorista", [.str "A", .str "B"]),
         ("Distancia", [.val (.num 0), .val (.num (-10))])] := by decide
    norm_num +decide only [h1, h2, h3, h4, h5, hm1, hm2, hcs,
      calculate_driver_scores, find_column_by_pattern, addRoleCols, mapExcept, foldExcept,
      uniqueCells, cellSum, cellMean, cellMax,
      cellGtZero, cellArith, Cell.peq, Cell.strsOf, Cell.valsOf, Cell.num, Cell.na,
      PVal.seriesSum, PVal.seriesMean, PVal.seriesMax, PVal.dropNan, PVal.isNan,
      PVal.add, PVal.div, PVal.mul, PVal.sub, PVal.neg, PVal.leB, PVal.gtZero,
      DataFrame.getCol, DataFrame.setCol, DataFrame.columns, DataFrame.empty, replaceFirst,
      except_bind_ok, except_bind_err, except_pure,
      List.range_succ, List.any_cons, List.any_nil, List.filter_cons, List.filter_nil,
      List.filterMap_cons, List.filterMap_nil, List.zip_cons_cons, List.zip_nil_right,
      List.zip_nil_left, List.foldl_cons, List.foldl_nil, List.length_cons, List.length_nil,
      List.isEmpty_cons, List.isEmpty_nil, List.find?_cons, List.find?_nil,
      List.mem_cons, List.mem_singleton, List.reverse_cons, List.reverse_nil,
      List.append_nil, List.nil_append, List.cons_append, List.map_cons, List.map_nil,
      List.append_eq, List.get?_cons_zero, List.get?_cons_succ, List.not_mem_nil,
      reduceIte, String.reduceEq, Char.reduceEq, Cell.str.injEq, Cell.val.injEq,
      PVal.num.injEq, Prod.mk.injEq, Option.some.injEq, decide_True, decide_False,
      or_false, false_or, or_true, true_or, not_false_iff, ne_eq, and_true, true_and,
      and_false, false_and, Bool.not_true, Bool.not_false, reduceCtorEq,
      String.reduceAppend, List.forall_mem_cons, forall_eq, forall_true_iff,
      ite_true, ite_false, dite_true, dite_false, if_true, if_false]
  rw [hfr]
  refine ⟨by decide, by decide, by decide⟩

set_option maxHeartbeats 2000000 in
/-- C6 amended: a non-event contributing metric is normalized to
value/max*100 only when its maximum over drivers is positive; when the
maximum is not positive the metric is left unnormalized — no normalized
column is produced and the raw totals enter the average unchanged. -/
theorem claim_C6_amended (a b c d : ℚ) (ha : a ≤ 0) (hb : b ≤ 0)
    (hc : 0 < c) (hd : d < c) :
    calculate_driver_scores (some ⟨[
        ("Motorista", [.str "A", .str "B"]),
        ("Distancia", [.val (.num a), .val (.num b)])]⟩) =
      .ok ⟨[
        ("motorista", [.str "A", .str "B"]),
        ("total_viagens", [.val (.num 1), .val (.num 1)]),
        ("distancia_total", [.val (.num a), .val (.num b)]),
        ("distancia_media", [.val (.num a), .val (.num b)]),
        ("total_viagens_norm", [.val (.num 100), .val (.num 100)]),
        ("score_geral", [.val (.num ((a + 100) / 2)), .val (.num ((b + 100) / 2))])]⟩ ∧
    "distancia_total_norm" ∉
      okCols (calculate_driver_scores (some ⟨[
        ("Motorista", [.str "A", .str "B"]),
        ("Distancia", [.val (.num a), .val (.num b)])]⟩)) ∧
    calculate_driver_scores (some ⟨[
        ("Motorista", [.str "A", .str "B"]),
        ("Distancia", [.val (.num c), .val (.num d)])]⟩) =
      .ok ⟨[
        ("motorista", [.str "A", .str "B"]),
        ("total_viagens", [.val (.num 1), .val (.num 1)]),
        ("distancia_total", [.val (.num c), .val (.num d)]),
        ("distancia_media", [.val (.num c), .val (.num d)]),
        ("distancia_total_norm", [.val (.num 100), .val (.num (d / c * 100))]),
        ("total_viagens_norm", [.val (.num 100), .val (.num 100)]),
        ("score_geral",
          [.val (.num 100), .val (.num ((d / c * 100 + 100) / 2))])]⟩ := by
  have h1 : findColAux ["Motorista", "Distancia"]
      ["motorista", "condutor", "driver"] = some "Motorista" := by decide
  have h2 : findColAux ["Motorista", "Distancia"]
      ["distancia", "km", "quilometragem", "distance"] = some "Distancia" := by decide
  have h3 : findColAux ["Motorista", "Distancia"]
      ["tempo", "duracao", "duration", "time"] = none := by decide
  have h4 : findColAux ["Motorista", "Distancia"]
      ["consumo", "combustivel", "fuel", "consumption"] = none := by decide
  have h5 : findColAux ["Motorista", "Distancia"]
      ["infracoes", "eventos", "violations", "events"] = none := by decide
  have hneg : calculate_driver_scores (some ⟨[
        ("Motorista", [.str "A", .str "B"]),
        ("Distancia", [.val (.num a), .val (.num b)])]⟩) =
      .ok ⟨[
        ("motorista", [.str "A", .str "B"]),
        ("total_viagens", [.val (.num 1), .val (.num 1)]),
        ("distancia_total", [.val (.num a), .val (.num b)]),
        ("distancia_media", [.val (.num a), .val (.num b)]),
        ("total_viagens_norm", [.val (.num 100), .val (.num 100)]),
        ("score_geral",
          [.val (.num ((a + 100) / 2)), .val (.num ((b + 100) / 2))])]⟩ := by
    have hga : PVal.gtZero (.num a) = false := by
      simp [PVal.gtZero, not_lt.mpr ha]
    have hgb : PVal.gtZero (.num b) = false := by
      simp [PVal.gtZero, not_lt.mpr hb]
    norm_num +decide only [h1, h2, h3, h4, h5,
      hga, hgb, apply_ite PVal.gtZero, ite_self,
      calculate_driver_scores, find_column_by_pattern, addRoleCols, mapExcept, foldExcept,
      metricFor, uniqueCells, cellSum, cellMean, cellMax,
      cellGtZero, cellArith, Cell.peq, Cell.strsOf, Cell.valsOf, Cell.num, Cell.na,
      PVal.seriesSum, PVal.seriesMean, PVal.seriesMax, PVal.dropNan, PVal.isNan,
      PVal.add, PVal.div, PVal.mul, PVal.sub, PVal.neg, PVal.leB,
      DataFrame.getCol, DataFrame.setCol, DataFrame.columns, DataFrame.empty, replaceFirst,
      except_bind_ok, except_bind_err, except_pure,
      zero_add, add_zero, one_mul, mul_one, div_one, zero_div,
      List.range_succ, List.any_cons, List.any_nil, List.filter_cons, List.filter_nil,
      List.filterMap_cons, List.filterMap_nil, List.zip_cons_cons, List.zip_nil_right,
      List.zip_nil_left, List.foldl_cons, List.foldl_nil, List.length_cons, List.length_nil,
      List.isEmpty_cons, List.isEmpty_nil, List.find?_cons, List.find?_nil,
      List.mem_cons, List.mem_singleton, List.reverse_cons, List.reverse_nil,
      List.append_nil, List.nil_append, List.cons_append, List.map_cons, List.map_nil,
      List.append_eq, List.get?_cons_zero, List.get?_cons_succ, List.not_mem_nil,
      reduceIte, String.reduceEq, Char.reduceEq, Cell.str.injEq, Cell.val.injEq,
      PVal.num.injEq, Prod.mk.injEq, Option.some.injEq, decide_True, decide_False,
      or_false, false_or, or_true, true_or, not_false_iff, ne_eq, and_true, true_and,
      and_false, false_and, Bool.not_true, Bool.not_false, reduceCtorEq,
      String.reduceAppend, List.forall_mem_cons, forall_eq, forall_true_iff,
      ite_true, ite_false, dite_true, dite_false, if_true, if_false]
    rfl
  have hpos : calculate_driver_scores (some ⟨[
        ("Motorista", [.str "A", .str "B"]),
        ("Distancia", [.val (.num c), .val (.num d)])]⟩) =
      .ok ⟨[
        ("motorista", [.str "A", .str "B"]),
        ("total_viagens", [.val (.num 1), .val (.num 1)]),
        ("distancia_total", [.val (.num c), .val (.num d)]),
        ("distancia_media", [.val (.num c), .val (.num d)]),
        ("distancia_total_norm", [.val (.num 100), .val (.num (d / c * 100))]),
        ("total_viagens_norm", [.val (.num 100), .val (.num 100)]),
        ("score_geral",
          [.val (.num 100), .val (.num ((d / c * 100 + 100) / 2))])]⟩ := by
    norm_num +decide only [h1, h2, h3, h4, h5,
      hc, hc.ne', not_le.mpr hd, div_self hc.ne',
      calculate_driver_scores, find_column_by_pattern, addRoleCols, mapExcept, foldExcept,
      metricFor, uniqueCells, cellSum, cellMean, cellMax,
      cellGtZero, cellArith, Cell.peq, Cell.strsOf, Cell.valsOf, Cell.num, Cell.na,
      PVal.seriesSum, PVal.seriesMean, PVal.seriesMax, PVal.dropNan, PVal.isNan,
      PVal.add, PVal.div, PVal.mul, PVal.sub, PVal.neg, PVal.leB, PVal.gtZero,
      DataFrame.getCol, DataFrame.setCol, DataFrame.columns, DataFrame.empty, replaceFirst,
      except_bind_ok, except_bind_err, except_pure,
      zero_add, add_zero, one_mul, mul_one, div_one, zero_div,
      List.range_succ, List.any_cons, List.any_nil, List.filter_cons, List.filter_nil,
      List.filterMap_cons, List.filterMap_nil, List.zip_cons_cons, List.zip_nil_right,
      List.zip_nil_left, List.foldl_cons, List.foldl_nil, List.length_cons, List.length_nil,
      List.isEmpty_cons, List.isEmpty_nil, List.find?_cons, List.find?_nil,
      List.mem_cons, List.mem_singleton, List.reverse_cons, List.reverse_nil,
      List.append_nil, List.nil_append, List.cons_append, List.map_cons, List.map_nil,
      List.append_eq, List.get?_cons_zero, List.get?_cons_succ, List.not_mem_nil,
      reduceIte, String.reduceEq, Char.reduceEq, Cell.str.injEq, Cell.val.injEq,
      PVal.num.injEq, Prod.mk.injEq, Option.some.injEq, decide_True, decide_False,
      or_false, false_or, or_true, true_or, not_false_iff, ne_eq, and_true, true_and,
      and_false, false_and, Bool.not_true, Bool.not_false, reduceCtorEq,
      String.reduceAppend, List.forall_mem_cons, forall_eq, forall_true_iff,
      ite_true, ite_false, dite_true, dite_false, if_true, if_false]
    rfl
  refine ⟨hneg, ?_, hpos⟩
  rw [hneg]
  simp only [okCols, DataFrame.columns, List.map_cons, List.map_nil]
  decide

/-- Witness for C6 amended at a = 0, b = -10, c = 4, d = 1. -/
theorem claim_C6_amended_witness :
    ((0 : ℚ) ≤ 0 ∧ (-10 : ℚ) ≤ 0 ∧ (0 : ℚ) < 4 ∧ (1 : ℚ) < 4) ∧
    okCol (calculate_driver_scores (some ⟨[
        ("Motorista", [.str "A", .str "B"]),
        ("Distancia", [.val (.num 0), .val (.num (-10))])]⟩)) "score_geral" =
      [.val (.num 50), .val (.num 45)] ∧
    okCol (calculate_driver_scores (some ⟨[
        ("Motorista", [.str "A", .str "B"]),
        ("Distancia", [.val (.num 4), .val (.num 1)])]⟩)) "distancia_total_norm" =
      [.val (.num 100), .val (.num 25)] := by
  have h := claim_C6_amended 0 (-10) 4 1 (by norm_num) (by norm_num)
    (by norm_num) (by norm_num)
  refine ⟨⟨by norm_num, by norm_num, by norm_num, by norm_num⟩, ?_, ?_⟩
  · rw [h.1]
    norm_num [okCol, DataFrame.getCol, List.find?_cons, List.find?_nil]
    decide
  · rw [h.2.2]
    norm_num [okCol, DataFrame.getCol, List.find?_cons, List.find?_nil]
    decide

set_option maxHeartbeats 2000000 in
/-- C1 counterexample: the time metrics are produced (tempo_total appears)
but are never normalized (no tempo_total_norm or tempo_medio_norm column
exists) and do not contribute to score_geral, which is 100 for both drivers
despite their different times — whereas the claim's mean over every
produced metric would give driver A (100 + 100/3 + 100/3)/3 = 500/9. -/
theorem claim_C1_counterexample :
    "tempo_total" ∈ okCols (calculate_driver_scores (some dfC1)) ∧
    "tempo_total_norm" ∉ okCols (calculate_driver_scores (some dfC1)) ∧
    "tempo_medio_norm" ∉ okCols (calculate_driver_scores (some dfC1)) ∧
    okCol (calculate_driver_scores (some dfC1)) "score_geral" =
      [.val (.num 100), .val (.num 100)] ∧
    okCol (calculate_driver_scores (some dfC1)) "score_geral" ≠
      [.val (.num (500/9)), .val (.num 100)] := by
  have hfr : calculate_driver_scores (some dfC1) =
      .ok ⟨[
        ("motorista", [.str "A", .str "B"]),
        ("total_viagens", [.val (.num 1), .val (.num 1)]),
        ("tempo_total", [.val (.num 10), .val (.num 30)]),
        ("tempo_medio", [.val (.num 10), .val (.num 30)]),
        ("total_viagens_norm", [.val (.num 100), .val (.num 100)]),
        ("score_geral", [.val (.num 100), .val (.num 100)])]⟩ := by
    have h1 : findColAux ["Motorista", "Tempo"]
        ["motorista", "condutor", "driver"] = some "Motorista" := by decide
    have h2 : findColAux ["Motorista", "Tempo"]
        ["distancia", "km", "quilometragem", "distance"] = none := by decide
    have h3 : findColAux ["Motorista", "Tempo"]
        ["tempo", "duracao", "duration", "time"] = some "Tempo" := by decide
    have h4 : findColAux ["Motorista", "Tempo"]
        ["consumo", "combustivel", "fuel", "consumption"] = none := by decide
    have h5 : findColAux ["Motorista", "Tempo"]
        ["infracoes", "eventos", "violations", "events"] = none := by decide
    have hcs : dfC1.cols =
        [("Motorista", [.str "A", .str "B"]),
         ("Tempo", [.val (.num 10), .val (.num 30)])] := by decide
    norm_num +decide only [h1, h2, h3, h4, h5, hcs,
      calculate_driver_scores, find_column_by_pattern, addRoleCols, mapExcept, foldExcept,
      metricFor, uniqueCells, cellSum, cellMean, cellMax,
      cellGtZero, cellArith, Cell.peq, Cell.strsOf, Cell.valsOf, Cell.num, Cell.na,
      PVal.seriesSum, PVal.seriesMean, PVal.seriesMax, PVal.dropNan, PVal.isNan,
      PVal.add, PVal.div, PVal.mul, PVal.sub, PVal.neg, PVal.leB, PVal.gtZero,
      DataFrame.getCol, DataFrame.setCol, DataFrame.columns, DataFrame.empty, replaceFirst,
      except_bind_ok, except_bind_err, except_pure,
      zero_add, add_zero, one_mul, mul_one, div_one, zero_div,
      List.range_succ, List.any_cons, List.any_nil, List.filter_cons, List.filter_nil,
      List.filterMap_cons, List.filterMap_nil, List.zip_cons_cons, List.zip_nil_right,
      List.zip_nil_left, List.foldl_cons, List.foldl_nil, List.length_cons, List.length_nil,
      List.isEmpty_cons, List.isEmpty_nil, List.find?_cons, List.find?_nil,
      List.mem_cons, List.mem_singleton, List.reverse_cons, List.reverse_nil,
      List.append_nil, List.nil_append, List.cons_append, List.map_cons, List.map_nil,
      List.append_eq, List.get?_cons_zero, List.get?_cons_succ, List.not_mem_nil,
      reduceIte, String.reduceEq, Char.reduceEq, Cell.str.injEq, Cell.val.injEq,
      PVal.num.injEq, Prod.mk.injEq, Option.some.injEq, decide_True, decide_False,
      or_false, false_or, or_true, true_or, not_false_iff, ne_eq, and_true, true_and,
      and_false, false_and, Bool.not_true, Bool.not_false, reduceCtorEq,
      String.reduceAppend, List.forall_mem_cons, forall_eq, forall_true_iff,
      ite_true, ite_false, dite_true, dite_false, if_true, if_false]
  have h100 : okCol (calculate_driver_scores (some dfC1)) "score_geral" =
      [.val (.num 100), .val (.num 100)] := by rw [hfr]; decide
  refine ⟨?_, ?_, ?_, h100, ?_⟩
  · rw [hfr]; decide
  · rw [hfr]; decide
  · rw [hfr]; decide
  · rw [h100]
    norm_num

set_option maxHeartbeats 2000000 in
/-- C1 amended: the contributing set of score_geral is exactly
distancia_total (when the distance role is discovered), total_viagens, and
the inversely normalized event count — the time and fuel metrics and the
per-driver means are produced but never normalized nor included (the
counterexample exhibits the exclusion; here the contributing behaviour is
proved for arbitrary distances and event counts). The non-event
contributors are normalized to value/max*100 (the loop replacing them by
their *_norm columns when the max is positive), the event count is
normalized as 100 - value/max*100 with no divide-by-zero guard, and
score_geral is the row mean of the contributing columns in that order. -/
theorem claim_C1_amended (d1 d2 e1 e2 : ℚ) (hd1 : 0 < d1) (hd2 : d2 < d1)
    (he1 : 0 < e1) (he2 : e2 < e1) :
    calculate_driver_scores (some ⟨[
        ("Motorista", [.str "A", .str "B"]),
        ("Distancia", [.val (.num d1), .val (.num d2)]),
        ("Eventos", [.val (.num e1), .val (.num e2)])]⟩) =
      .ok ⟨[
        ("motorista", [.str "A", .str "B"]),
        ("total_viagens", [.val (.num 1), .val (.num 1)]),
        ("distancia_total", [.val (.num d1), .val (.num d2)]),
        ("distancia_media", [.val (.num d1), .val (.num d2)]),
        ("total_eventos", [.val (.num e1), .val (.num e2)]),
        ("eventos_norm", [.val (.num 0), .val (.num (100 - e2 / e1 * 100))]),
        ("distancia_total_norm", [.val (.num 100), .val (.num (d2 / d1 * 100))]),
        ("total_viagens_norm", [.val (.num 100), .val (.num 100)]),
        ("score_geral",
          [.val (.num (200 / 3)),
           .val (.num ((d2 / d1 * 100 + 100 + (100 - e2 / e1 * 100)) / 3))])]⟩ := by
  have h1 : findColAux ["Motorista", "Distancia", "Eventos"]
      ["motorista", "condutor", "driver"] = some "Motorista" := by decide
  have h2 : findColAux ["Motorista", "Distancia", "Eventos"]
      ["distancia", "km", "quilometragem", "distance"] = some "Distancia" := by decide
  have h3 : findColAux ["Motorista", "Distancia", "Eventos"]
      ["tempo", "duracao", "duration", "time"] = none := by decide
  have h4 : findColAux ["Motorista", "Distancia", "Eventos"]
      ["consumo", "combustivel", "fuel", "consumption"] = none := by decide
  have h5 : findColAux ["Motorista", "Distancia", "Eventos"]
      ["infracoes", "eventos", "violations", "events"] = some "Eventos" := by decide
  norm_num +decide only [h1, h2, h3, h4, h5,
    hd1, hd1.ne', not_le.mpr hd2, div_self hd1.ne',
    he1, he1.ne', not_le.mpr he2, div_self he1.ne', sub_eq_add_neg,
    calculate_driver_scores, find_column_by_pattern, addRoleCols, mapExcept, foldExcept,
    metricFor, uniqueCells, cellSum, cellMean, cellMax,
    cellGtZero, cellArith, Cell.peq, Cell.strsOf, Cell.valsOf, Cell.num, Cell.na,
    PVal.seriesSum, PVal.seriesMean, PVal.seriesMax, PVal.dropNan, PVal.isNan,
    PVal.add, PVal.div, PVal.mul, PVal.sub, PVal.neg, PVal.leB, PVal.gtZero,
    DataFrame.getCol, DataFrame.setCol, DataFrame.columns, DataFrame.empty, replaceFirst,
    except_bind_ok, except_bind_err, except_pure,
    zero_add, add_zero, one_mul, mul_one, div_one, zero_div,
    List.range_succ, List.any_cons, List.any_nil, List.filter_cons, List.filter_nil,
    List.filterMap_cons, List.filterMap_nil, List.zip_cons_cons, List.zip_nil_right,
    List.zip_nil_left, List.foldl_cons, List.foldl_nil, List.length_cons, List.length_nil,
    List.isEmpty_cons, List.isEmpty_nil, List.find?_cons, List.find?_nil,
    List.mem_cons, List.mem_singleton, List.reverse_cons, List.reverse_nil,
    List.append_nil, List.nil_append, List.cons_append, List.map_cons, List.map_nil,
    List.append_eq, List.get?_cons_zero, List.get?_cons_succ, List.not_mem_nil,
    reduceIte, String.reduceEq, Char.reduceEq, Cell.str.injEq, Cell.val.injEq,
    PVal.num.injEq, Prod.mk.injEq, Option.some.injEq, decide_True, decide_False,
    or_false, false_or, or_true, true_or, not_false_iff, ne_eq, and_true, true_and,
    and_false, false_and, Bool.not_true, Bool.not_false, reduceCtorEq,
    String.reduceAppend, List.forall_mem_cons, forall_eq, forall_true_iff,
    ite_true, ite_false, dite_true, dite_false, if_true, if_false]
  rfl

/-- Witness for C1 amended at distances 4, 1 and event counts 2, 1. -/
theorem claim_C1_amended_witness :
    ((0 : ℚ) < 4 ∧ (1 : ℚ) < 4 ∧ (0 : ℚ) < 2 ∧ (1 : ℚ) < 2) ∧
    calculate_driver_scores (some ⟨[
        ("Motorista", [.str "A", .str "B"]),
        ("Distancia", [.val (.num 4), .val (.num 1)]),
        ("Eventos", [.val (.num 2), .val (.num 1)])]⟩) =
      .ok ⟨[
        ("motorista", [.str "A", .str "B"]),
        ("total_viagens", [.val (.num 1), .val (.num 1)]),
        ("distancia_total", [.val (.num 4), .val (.num 1)]),
        ("distancia_media", [.val (.num 4), .val (.num 1)]),
        ("total_eventos", [.val (.num 2), .val (.num 1)]),
        ("eventos_norm", [.val (.num 0), .val (.num (100 - 1 / 2 * 100))]),
        ("distancia_total_norm", [.val (.num 100), .val (.num (1 / 4 * 100))]),
        ("total_viagens_norm", [.val (.num 100), .val (.num 100)]),
        ("score_geral",
          [.val (.num (200 / 3)),
           .val (.num ((1 / 4 * 100 + 100 + (100 - 1 / 2 * 100)) / 3))])]⟩ :=
  ⟨⟨by norm_num, by norm_num, by norm_num, by norm_num⟩,
   claim_C1_amended 4 1 2 1 (by norm_num) (by norm_num) (by norm_num) (by norm_num)⟩

/-- Witness for C8 amended at the concrete prior processor. -/
theorem claim_C8_amended_witness :
    (load_data pPrior "dados/novo.xlsx" none).1 = false ∧
    (load_data pPrior "dados/novo.xlsx" none).2.data = pPrior.data ∧
    (load_data pPrior "dados/novo.xlsx" none).2.metadata = pPrior.metadata ∧
    (load_data pPrior "dados/novo.xlsx" none).2.column_types = pPrior.column_types ∧
    (load_data pPrior "dados/novo.xlsx" none).2.summary_stats = pPrior.summary_stats ∧
    (load_data pPrior "dados/novo.xlsx" none).2.file_path = some "dados/novo.xlsx" :=
  claim_C8_amended pPrior "dados/novo.xlsx"
